import Mathlib

/-!
Verification of the Video_proctoring repository's core logic.

Shallow embedding of:
* `src/lib/database.ts` — the `InMemoryDatabase` class (sessions, events,
  integrity score);
* `src/unnamed/part_000` (the `/api/sessions` route) — `POST` validation
  and session creation;
* `src/app/api/sessions/[sessionId]/route.ts` — `PATCH` (partial updates);
* `src/components/video-proctoring.tsx` — `handleFaceDetection`, the
  temporal debouncer for `no_face`, `multiple_faces` and `focus_loss`;
* `src/app/api/reports/[sessionId]/route.ts` — `generateRecommendations`
  (the identical copy in `src/app/api/reports/batch/route.ts` is covered by
  the same definition).

JavaScript `Date` timestamps are modelled as `Nat` milliseconds; the
numeric score is an `Int` (`Math.max(0, 100 - d)` is integer-valued on
integer inputs).  The JS `Map` is modelled as an insertion-ordered
association list with `Map.get`/`Map.set` semantics.
-/

set_option autoImplicit false

namespace VideoProctoring

/-- `severity ∈ {low, medium, high}` from the `ProctoringEvent` interface. -/
inductive Severity where
  | low
  | medium
  | high
deriving DecidableEq, Repr

/-- `type` field of `ProctoringEvent`:
`"focus_loss" | "no_face" | "multiple_faces" | "suspicious_object"`. -/
inductive EventType where
  | focus_loss
  | no_face
  | multiple_faces
  | suspicious_object
deriving DecidableEq, Repr

/-- `status` field of `ProctoringSession`:
`"active" | "completed" | "terminated"`. -/
inductive SessionStatus where
  | active
  | completed
  | terminated
deriving DecidableEq, Repr

/-- `ProctoringEvent` from `src/lib/database.ts`.  The free-form
`metadata?: Record<string, any>` is modelled as an optional list of
string key/value pairs; no core logic inspects it. -/
structure ProctoringEvent where
  id : String
  sessionId : String
  type : EventType
  timestamp : Nat
  description : String
  severity : Severity
  metadata : Option (List (String × String)) := none
deriving DecidableEq, Repr

/-- `ProctoringSession` from `src/lib/database.ts`. -/
structure ProctoringSession where
  id : String
  candidateName : String
  startTime : Nat
  endTime : Option Nat := none
  status : SessionStatus
  totalEvents : Nat
  integrityScore : Int
deriving DecidableEq, Repr

/-- A JS `Map<string, α>` as an insertion-ordered association list. -/
abbrev SMap (α : Type) := List (String × α)

/-- `Map.get`: first binding of the key, if any. -/
def mapGet {α : Type} (k : String) : SMap α → Option α
  | [] => none
  | (k', v) :: rest => if k' = k then some v else mapGet k rest

/-- `Map.set`: replace the binding in place if the key exists, otherwise
append a new binding at the end (JS `Map` keeps insertion order). -/
def mapSet {α : Type} (k : String) (v : α) : SMap α → SMap α
  | [] => [(k, v)]
  | (k', v') :: rest => if k' = k then (k, v) :: rest else (k', v') :: mapSet k v rest

/-- The private state of `InMemoryDatabase`: `sessions` and `events` maps. -/
structure Db where
  sessions : SMap ProctoringSession
  events : SMap (List ProctoringEvent)
deriving Repr

/-- The freshly constructed database (both maps empty). -/
def Db.empty : Db := ⟨[], []⟩

/-- The deduction table `severityWeights = { low: 2, medium: 5, high: 10 }`
from `InMemoryDatabase.addEvent`. -/
def severityWeights : Severity → Int
  | .low => 2
  | .medium => 5
  | .high => 10

/-- `sessionEvents.reduce((sum, evt) => sum + severityWeights[evt.severity], 0)`. -/
def totalDeductions (evs : List ProctoringEvent) : Int :=
  evs.foldl (fun sum evt => sum + severityWeights evt.severity) 0

/-- `InMemoryDatabase.createSession`.  The generated id
(`session_${Date.now()}_${random}`) and `Date.now()` are inputs `newId`
and `now` of the embedding. -/
def createSession (db : Db) (newId : String) (now : Nat)
    (candidateName : String) : ProctoringSession × Db :=
  let session : ProctoringSession :=
    { id := newId
      candidateName := candidateName
      startTime := now
      status := .active
      totalEvents := 0
      integrityScore := 100 }
  (session, { sessions := mapSet newId session db.sessions
              events := mapSet newId [] db.events })

/-- `InMemoryDatabase.getSession`: `this.sessions.get(sessionId) || null`. -/
def getSession (db : Db) (sessionId : String) : Option ProctoringSession :=
  mapGet sessionId db.sessions

/-- The `Partial<ProctoringSession>` argument of `updateSession`: every
field optional; a present field overwrites the stored one (object spread
`{ ...session, ...updates }`). -/
structure SessionUpdates where
  id : Option String := none
  candidateName : Option String := none
  startTime : Option Nat := none
  endTime : Option (Option Nat) := none
  status : Option SessionStatus := none
  totalEvents : Option Nat := none
  integrityScore : Option Int := none
deriving Repr

/-- `{ ...session, ...updates }`. -/
def applyUpdates (s : ProctoringSession) (u : SessionUpdates) : ProctoringSession :=
  { id := u.id.getD s.id
    candidateName := u.candidateName.getD s.candidateName
    startTime := u.startTime.getD s.startTime
    endTime := u.endTime.getD s.endTime
    status := u.status.getD s.status
    totalEvents := u.totalEvents.getD s.totalEvents
    integrityScore := u.integrityScore.getD s.integrityScore }

/-- `InMemoryDatabase.updateSession`: returns `null` when the session is
absent; otherwise stores and returns the merged session.  No status check
of any kind is performed. -/
def updateSession (db : Db) (sessionId : String) (u : SessionUpdates) :
    Option ProctoringSession × Db :=
  match mapGet sessionId db.sessions with
  | none => (none, db)
  | some session =>
    let updatedSession := applyUpdates session u
    (some updatedSession,
     { db with sessions := mapSet sessionId updatedSession db.sessions })

/-- The `Omit<ProctoringEvent, "id" | "sessionId">` argument of `addEvent`. -/
structure EventInput where
  type : EventType
  timestamp : Nat
  description : String
  severity : Severity
  metadata : Option (List (String × String)) := none
deriving DecidableEq, Repr

/-- `InMemoryDatabase.addEvent`.  The generated event id is the input
`newId`.  Faithful to the source: the event is appended whether or not the
session exists (`this.events.get(sessionId) || []`), and the session's
`totalEvents`/`integrityScore` are recomputed only when the session exists. -/
def addEvent (db : Db) (sessionId : String) (newId : String)
    (event : EventInput) : ProctoringEvent × Db :=
  let fullEvent : ProctoringEvent :=
    { id := newId
      sessionId := sessionId
      type := event.type
      timestamp := event.timestamp
      description := event.description
      severity := event.severity
      metadata := event.metadata }
  let sessionEvents := (mapGet sessionId db.events).getD []
  let sessionEvents := sessionEvents ++ [fullEvent]
  let events := mapSet sessionId sessionEvents db.events
  let sessions :=
    match mapGet sessionId db.sessions with
    | some session =>
      mapSet sessionId
        { session with
            totalEvents := sessionEvents.length
            integrityScore := max 0 (100 - totalDeductions sessionEvents) }
        db.sessions
    | none => db.sessions
  (fullEvent, { sessions := sessions, events := events })

/-- `InMemoryDatabase.getEvents`: `this.events.get(sessionId) || []`. -/
def getEvents (db : Db) (sessionId : String) : List ProctoringEvent :=
  (mapGet sessionId db.events).getD []

/-- `InMemoryDatabase.getEventsByType`. -/
def getEventsByType (db : Db) (sessionId : String) (type : EventType) :
    List ProctoringEvent :=
  ((mapGet sessionId db.events).getD []).filter (fun event => event.type = type)

/-! ### The `/api/sessions` POST route (`src/unnamed/part_000`)

The request body's `candidateName` is modelled as `Option String`:
`none` stands for an absent / non-string value.  The JS guard
`!candidateName || typeof candidateName !== "string"` rejects exactly
`none` and the empty string `""` (the only falsy string); every other
string — including whitespace-only ones — passes, and the session is
created with the trimmed name. -/

/-- JS `String.prototype.trim`: strip leading and trailing whitespace
(executable character-list formulation). -/
def jsTrim (s : String) : String :=
  ⟨((s.data.dropWhile Char.isWhitespace).reverse.dropWhile Char.isWhitespace).reverse⟩

/-- Result of the POST `/api/sessions` handler. -/
inductive CreateSessionResult where
  /-- The 400 response `{ error: "Candidate name is required" }`. -/
  | badRequest
  /-- The success response carrying the created session. -/
  | ok (session : ProctoringSession)
deriving DecidableEq, Repr

/-- `POST /api/sessions` from `src/unnamed/part_000`. -/
def postSession (db : Db) (newId : String) (now : Nat)
    (candidateName : Option String) : CreateSessionResult × Db :=
  match candidateName with
  | none => (.badRequest, db)
  | some name =>
    if name = "" then (.badRequest, db)
    else
      let (session, db) := createSession db newId now (jsTrim name)
      (.ok session, db)

/-! ### The temporal debouncer (`handleFaceDetection` in
`src/components/video-proctoring.tsx`) -/

/-- The `{ faceCount, isLookingAway, confidence }` sample delivered by the
face detector each tick.  `confidence` is a fraction in `[0,1]`, modelled
exactly as `ℚ`; no emission logic reads it. -/
structure DetectionResult where
  faceCount : Nat
  isLookingAway : Bool
  confidence : ℚ
deriving DecidableEq, Repr

/-- The `faceDetectionStats` React state. -/
structure FaceStats where
  currentFaces : Nat
  isLookingAway : Bool
  confidence : ℚ
  lastFaceTime : Nat
  lookAwayStartTime : Option Nat
deriving DecidableEq, Repr

/-- An event as passed to `addEvent(type, description, severity)` by the
debouncer (the component assigns id/timestamp separately). -/
structure EmittedEvent where
  type : EventType
  description : String
  severity : Severity
deriving DecidableEq, Repr

/-- One invocation of `handleFaceDetection` at time `now` (`Date.now()`),
returning the new `faceDetectionStats` and the events emitted in program
order (`no_face`, then `multiple_faces`, then `focus_loss`).

The guard `newStats.lookAwayStartTime && now - newStats.lookAwayStartTime > 5000`
tests JS truthiness first, so a stored start time of `0` is falsy and
disables the check; the embedding keeps that behaviour. -/
def handleFaceDetection (prev : FaceStats) (now : Nat)
    (result : DetectionResult) : FaceStats × List EmittedEvent :=
  let newStats : FaceStats :=
    { currentFaces := result.faceCount
      isLookingAway := result.isLookingAway
      confidence := result.confidence
      lastFaceTime := if result.faceCount > 0 then now else prev.lastFaceTime
      lookAwayStartTime :=
        if result.isLookingAway && !prev.isLookingAway then some now
        else if !result.isLookingAway then none
        else prev.lookAwayStartTime }
  let noFaceEvents : List EmittedEvent :=
    if result.faceCount = 0 ∧ now - prev.lastFaceTime > 10000 then
      [⟨.no_face, "No face detected for more than 10 seconds", .high⟩]
    else []
  let multiFaceEvents : List EmittedEvent :=
    if result.faceCount > 1 then
      [⟨.multiple_faces, toString result.faceCount ++ " faces detected in frame", .high⟩]
    else []
  match newStats.lookAwayStartTime with
  | some start =>
    if start ≠ 0 ∧ now - start > 5000 then
      ({ newStats with lookAwayStartTime := some now },
       noFaceEvents ++ multiFaceEvents ++
         [⟨.focus_loss, "Candidate looked away from screen for more than 5 seconds", .medium⟩])
    else (newStats, noFaceEvents ++ multiFaceEvents)
  | none => (newStats, noFaceEvents ++ multiFaceEvents)

/-- Run `handleFaceDetection` over a list of `(time, sample)` ticks,
collecting all emitted events in order. -/
def runTicks (init : FaceStats) : List (Nat × DetectionResult) →
    FaceStats × List EmittedEvent
  | [] => (init, [])
  | (now, result) :: rest =>
    let (stats, evs) := handleFaceDetection init now result
    let (finalStats, evs') := runTicks stats rest
    (finalStats, evs ++ evs')

/-! ### The recommendation engine (`generateRecommendations` in
`src/app/api/reports/[sessionId]/route.ts`; the copy in
`src/app/api/reports/batch/route.ts` is textually identical). -/

/-- The `eventsByType` aggregate of `getSessionStats`. -/
structure EventsByType where
  focus_loss : Nat
  no_face : Nat
  multiple_faces : Nat
  suspicious_object : Nat
deriving DecidableEq, Repr

/-- The `eventsBySeverity` aggregate of `getSessionStats`. -/
structure EventsBySeverity where
  low : Nat
  medium : Nat
  high : Nat
deriving DecidableEq, Repr

/-- The fields of the `stats` argument that `generateRecommendations`
reads: `stats.session.integrityScore`, `stats.eventsByType`,
`stats.eventsBySeverity`. -/
structure ReportStats where
  integrityScore : Int
  eventsByType : EventsByType
  eventsBySeverity : EventsBySeverity
deriving DecidableEq, Repr

/-- `generateRecommendations(stats)`: each `recommendations.push(...)` is
an append, in program order. -/
def generateRecommendations (stats : ReportStats) : List String :=
  (if stats.integrityScore ≥ 90 then
    ["Excellent interview integrity maintained throughout the session."]
  else if stats.integrityScore ≥ 70 then
    ["Good overall performance with minor integrity concerns."]
  else if stats.integrityScore ≥ 50 then
    ["Moderate integrity issues detected. Review flagged events."]
  else
    ["Significant integrity concerns. Manual review strongly recommended."])
  ++ (if stats.eventsByType.focus_loss > 3 then
    ["Candidate frequently lost focus. Consider environment assessment."] else [])
  ++ (if stats.eventsByType.suspicious_object > 0 then
    ["Suspicious objects detected. Verify candidate workspace setup."] else [])
  ++ (if stats.eventsByType.multiple_faces > 0 then
    ["Multiple faces detected. Investigate potential unauthorized assistance."] else [])
  ++ (if stats.eventsBySeverity.high > 2 then
    ["Multiple high-severity events recorded. Detailed investigation required."] else [])

/-! ### The `/api/events` GET route (`src/app/api/events/route.ts`) -/

/-- Result of the GET `/api/events` handler. -/
inductive GetEventsResult where
  /-- The 400 response when `sessionId` is absent. -/
  | badRequest
  /-- The success response carrying the (possibly filtered) event list. -/
  | ok (events : List ProctoringEvent)
deriving DecidableEq, Repr

/-- `GET /api/events`.  `sessionId = none` models an absent query
parameter; `type = none` models an absent (or empty, hence falsy) `type`
parameter.  There is no not-found branch: any present `sessionId` is
answered with a success response. -/
def getEventsRoute (db : Db) (sessionId : Option String)
    (type : Option EventType) : GetEventsResult :=
  match sessionId with
  | none => .badRequest
  | some sid =>
    match type with
    | some t => .ok (getEventsByType db sid t)
    | none => .ok (getEvents db sid)

/-! ### Auxiliary definitions used by the statements -/

/-- The spec's score-band tier message (§4.4 rule 1 / §4.3 tiering):
`≥90` Excellent, `≥70` Good, `≥50` Moderate, otherwise Significant.
Written from the spec's words, to be compared with
`generateRecommendations`. -/
def tierMessage (score : Int) : String :=
  if score ≥ 90 then
    "Excellent interview integrity maintained throughout the session."
  else if score ≥ 70 then
    "Good overall performance with minor integrity concerns."
  else if score ≥ 50 then
    "Moderate integrity issues detected. Review flagged events."
  else
    "Significant integrity concerns. Manual review strongly recommended."

/-- Number of `focus_loss` events in an emission trace. -/
def focusLossCount (evs : List EmittedEvent) : Nat :=
  (evs.filter (fun e => e.type = .focus_loss)).length

/-- The face/gaze sample of a nominal "one face, looking away" tick. -/
def awaySample : DetectionResult := ⟨1, true, 1⟩

/-- `m` consecutive looking-away samples, 1000 ms apart, starting at
time `t` (the reference polling interval for face/gaze is 1000 ms). -/
def awayTicksFrom (t : Nat) : Nat → List (Nat × DetectionResult)
  | 0 => []
  | m + 1 => (t, awaySample) :: awayTicksFrom (t + 1000) m

/-- A run in which `isLookingAway` transitions to `true` at sample time
`s` and stays `true` for `n` further samples, 1000 ms apart. -/
def transitionRun (s n : Nat) : List (Nat × DetectionResult) :=
  (s, awaySample) :: awayTicksFrom (s + 1000) n

/-- A pre-episode debouncer state: one face, not looking away. -/
def initStats : FaceStats :=
  { currentFaces := 1
    isLookingAway := false
    confidence := 1
    lastFaceTime := 0
    lookAwayStartTime := none }

/-- Demo database: one session created for candidate "Jane". -/
def dbJane : Db := (createSession Db.empty "s1" 0 "Jane").2

/-- The session record stored in `dbJane`. -/
def janeSession : ProctoringSession :=
  { id := "s1"
    candidateName := "Jane"
    startTime := 0
    status := .active
    totalEvents := 0
    integrityScore := 100 }

/-- Demo database: Jane's session moved to the terminal `completed` status. -/
def dbCompleted : Db :=
  (updateSession dbJane "s1" { status := some .completed }).2

/-- A sample high-severity event input. -/
def sampleInput : EventInput :=
  { type := .no_face
    timestamp := 5
    description := "No face detected for more than 10 seconds"
    severity := .high }

/-- The §3 cache invariant: every stored session's `integrityScore` (and
`totalEvents`) equals the value recomputed from its event ledger. -/
def ScoreInv (db : Db) : Prop :=
  ∀ (sid : String) (s : ProctoringSession), getSession db sid = some s →
    s.integrityScore = max 0 (100 - totalDeductions (getEvents db sid)) ∧
    s.totalEvents = (getEvents db sid).length

/-! ## Theorems -/

/-! ### Association-list lemmas -/

theorem mapGet_mapSet_self {α : Type} (k : String) (v : α) (m : SMap α) :
    mapGet k (mapSet k v m) = some v := by
  induction m with
  | nil => simp [mapGet, mapSet]
  | cons hd tl ih =>
    obtain ⟨k', v'⟩ := hd
    by_cases h : k' = k <;> simp [mapGet, mapSet, h, ih]

theorem mapGet_mapSet_ne {α : Type} (k k' : String) (v : α) (m : SMap α)
    (h : k ≠ k') : mapGet k' (mapSet k v m) = mapGet k' m := by
  induction m with
  | nil => simp [mapGet, mapSet, h]
  | cons hd tl ih =>
    obtain ⟨k'', v''⟩ := hd
    by_cases h2 : k'' = k
    · subst h2
      simp [mapGet, mapSet, h]
    · simp only [mapSet, if_neg h2]
      by_cases h3 : k'' = k' <;> simp [mapGet, h3, ih]

theorem severityWeights_nonneg (s : Severity) : 0 ≤ severityWeights s := by
  cases s <;> simp [severityWeights]

theorem deductions_foldl_le (evs : List ProctoringEvent) :
    ∀ a : Int, a ≤ evs.foldl (fun sum evt => sum + severityWeights evt.severity) a := by
  induction evs with
  | nil => intro a; simp
  | cons e tl ih =>
    intro a
    calc a ≤ a + severityWeights e.severity := by
            have := severityWeights_nonneg e.severity; omega
      _ ≤ _ := ih _

theorem totalDeductions_nonneg (evs : List ProctoringEvent) :
    0 ≤ totalDeductions evs :=
  deductions_foldl_le evs 0

/-! ### C1 -/

/-- **C1.** Appending an event to an existing session stores on that
session the integrity score `max 0 (100 - Σ severityWeights)` summed over
all events now in the session's ledger (weights: low 2, medium 5,
high 10), and that score is an integer in `[0, 100]`. -/
theorem C1_integrity_score_formula (db : Db) (sid newId : String)
    (input : EventInput) (s : ProctoringSession)
    (h : getSession db sid = some s) :
    ∃ s' : ProctoringSession,
      getSession (addEvent db sid newId input).2 sid = some s' ∧
      s'.integrityScore =
        max 0 (100 - totalDeductions (getEvents (addEvent db sid newId input).2 sid)) ∧
      0 ≤ s'.integrityScore ∧ s'.integrityScore ≤ 100 := by
  simp only [getSession] at h
  simp only [addEvent, getSession, getEvents, h, mapGet_mapSet_self]
  refine ⟨_, rfl, rfl, le_max_left .., ?_⟩
  have hd := totalDeductions_nonneg
    ((mapGet sid db.events).getD [] ++
      [{ id := newId, sessionId := sid, type := input.type,
         timestamp := input.timestamp, description := input.description,
         severity := input.severity, metadata := input.metadata }])
  dsimp only
  exact max_le (by norm_num) (by omega)

/-- Witness for C1 at a concrete database: Jane's fresh session receives
one high-severity event; the stored score is `90 = max 0 (100 - 10)`. -/
theorem C1_witness :
    getSession dbJane "s1" = some janeSession ∧
    ∃ s' : ProctoringSession,
      getSession (addEvent dbJane "s1" "e1" sampleInput).2 "s1" = some s' ∧
      s'.integrityScore =
        max 0 (100 - totalDeductions (getEvents (addEvent dbJane "s1" "e1" sampleInput).2 "s1")) ∧
      0 ≤ s'.integrityScore ∧ s'.integrityScore ≤ 100 :=
  ⟨by decide, C1_integrity_score_formula dbJane "s1" "e1" sampleInput janeSession (by decide)⟩

/-! ### C2 -/

/-- **C2 counterexample.** Appending to a sessionId that identifies no
session does not fail with NotFound: on the empty database, `addEvent`
for the unknown id `"ghost"` returns the full event and stores it in the
ledger under `"ghost"`. -/
theorem C2_counterexample :
    getSession Db.empty "ghost" = none ∧
    (addEvent Db.empty "ghost" "e1" sampleInput).1 =
      { id := "e1", sessionId := "ghost", type := .no_face, timestamp := 5,
        description := "No face detected for more than 10 seconds",
        severity := .high, metadata := none } ∧
    getEvents (addEvent Db.empty "ghost" "e1" sampleInput).2 "ghost" =
      [{ id := "e1", sessionId := "ghost", type := .no_face, timestamp := 5,
         description := "No face detected for more than 10 seconds",
         severity := .high, metadata := none }] := by
  refine ⟨rfl, rfl, rfl⟩

/-- **C2 amended.** `addEvent` never fails: for every database and
sessionId (existing or not) it returns the full event and appends it at
the end of that sessionId's ledger (arrival order); when the session
exists, its `totalEvents` and `integrityScore` are updated in the same
step from the new ledger. -/
theorem C2_addEvent_behaviour (db : Db) (sid newId : String)
    (input : EventInput) :
    (addEvent db sid newId input).1 =
      { id := newId, sessionId := sid, type := input.type,
        timestamp := input.timestamp, description := input.description,
        severity := input.severity, metadata := input.metadata } ∧
    getEvents (addEvent db sid newId input).2 sid =
      getEvents db sid ++ [(addEvent db sid newId input).1] ∧
    (∀ s : ProctoringSession, getSession db sid = some s →
      getSession (addEvent db sid newId input).2 sid =
        some { s with
                 totalEvents := (getEvents (addEvent db sid newId input).2 sid).length
                 integrityScore :=
                   max 0 (100 - totalDeductions (getEvents (addEvent db sid newId input).2 sid)) }) := by
  refine ⟨rfl, ?_, ?_⟩
  · simp only [addEvent, getEvents, mapGet_mapSet_self, Option.getD_some]
  · intro s h
    simp only [getSession] at h
    simp only [addEvent, getSession, getEvents, h, mapGet_mapSet_self,
      Option.getD_some]

/-- Witness for C2 amended at Jane's database. -/
theorem C2_witness :
    ((addEvent dbJane "s1" "e1" sampleInput).1 =
      { id := "e1", sessionId := "s1", type := .no_face, timestamp := 5,
        description := "No face detected for more than 10 seconds",
        severity := .high, metadata := none } ∧
    getEvents (addEvent dbJane "s1" "e1" sampleInput).2 "s1" =
      getEvents dbJane "s1" ++ [(addEvent dbJane "s1" "e1" sampleInput).1] ∧
    (∀ s : ProctoringSession, getSession dbJane "s1" = some s →
      getSession (addEvent dbJane "s1" "e1" sampleInput).2 "s1" =
        some { s with
                 totalEvents := (getEvents (addEvent dbJane "s1" "e1" sampleInput).2 "s1").length
                 integrityScore :=
                   max 0 (100 - totalDeductions (getEvents (addEvent dbJane "s1" "e1" sampleInput).2 "s1")) })) ∧
    getSession dbJane "s1" = some janeSession :=
  ⟨C2_addEvent_behaviour dbJane "s1" "e1" sampleInput, by decide⟩

/-! ### C3 -/

/-- **C3 counterexample.** Terminating an already-`completed` session
succeeds and changes the stored status: no `InvalidTransition` failure
exists in the code. -/
theorem C3_counterexample :
    getSession dbCompleted "s1" = some { janeSession with status := .completed } ∧
    (updateSession dbCompleted "s1" { status := some .terminated }).1 =
      some { janeSession with status := .terminated } ∧
    getSession (updateSession dbCompleted "s1" { status := some .terminated }).2 "s1" =
      some { janeSession with status := .terminated } :=
  ⟨rfl, rfl, rfl⟩

/-- **C3 amended.** `updateSession` performs no status check at all: for
every existing session — in particular one whose status is `completed` or
`terminated` — any partial update succeeds, and the merged session
(`{ ...session, ...updates }`) is returned and stored. -/
theorem C3_no_transition_guard (db : Db) (sid : String) (u : SessionUpdates)
    (s : ProctoringSession) (h : getSession db sid = some s) :
    (updateSession db sid u).1 = some (applyUpdates s u) ∧
    getSession (updateSession db sid u).2 sid = some (applyUpdates s u) := by
  simp only [getSession] at h
  simp only [updateSession, getSession, h, mapGet_mapSet_self, and_self]

/-- Witness for C3 amended: moving Jane's `completed` session to
`terminated` by applying the theorem at that concrete database. -/
theorem C3_witness :
    getSession dbCompleted "s1" = some { janeSession with status := .completed } ∧
    ((updateSession dbCompleted "s1" { status := some .terminated }).1 =
      some (applyUpdates { janeSession with status := .completed }
        { status := some .terminated }) ∧
    getSession (updateSession dbCompleted "s1" { status := some .terminated }).2 "s1" =
      some (applyUpdates { janeSession with status := .completed }
        { status := some .terminated })) :=
  ⟨by decide,
   C3_no_transition_guard dbCompleted "s1" { status := some .terminated }
     { janeSession with status := .completed } (by decide)⟩

/-! ### C4 -/

/-- **C4 counterexample.** A whitespace-only candidate name is not
rejected: `POST /api/sessions` with body name `" "` succeeds and creates
an `active` session whose stored (trimmed) name is empty.  Only an
absent/non-string body value or the empty string (the one falsy string)
is rejected. -/
theorem C4_counterexample :
    (postSession Db.empty "s1" 0 (some " ")).1 =
      .ok { id := "s1", candidateName := "", startTime := 0,
            status := .active, totalEvents := 0, integrityScore := 100 } := by
  decide

/-- **C4 amended.** Session creation fails with the validation error iff
the candidate name is absent/non-string or exactly the empty string;
every other name — whitespace-only ones included — is accepted, and the
created session carries the trimmed name, status `active`, score 100 and
zero events. -/
theorem C4_validation (db : Db) (newId : String) (now : Nat) (name : String)
    (h : name ≠ "") :
    (postSession db newId now (some name)).1 =
      .ok { id := newId, candidateName := jsTrim name, startTime := now,
            status := .active, totalEvents := 0, integrityScore := 100 } ∧
    getSession (postSession db newId now (some name)).2 newId =
      some { id := newId, candidateName := jsTrim name, startTime := now,
             status := .active, totalEvents := 0, integrityScore := 100 } ∧
    (postSession db newId now none).1 = .badRequest ∧
    (postSession db newId now (some "")).1 = .badRequest := by
  refine ⟨?_, ?_, rfl, rfl⟩ <;>
    simp only [postSession, createSession, if_neg h, getSession,
      mapGet_mapSet_self]

/-- Witness for C4 amended at the whitespace-only name `" "`. -/
theorem C4_witness :
    (" " ≠ "") ∧
    ((postSession Db.empty "s1" 0 (some " ")).1 =
      .ok { id := "s1", candidateName := jsTrim " ", startTime := 0,
            status := .active, totalEvents := 0, integrityScore := 100 } ∧
    getSession (postSession Db.empty "s1" 0 (some " ")).2 "s1" =
      some { id := "s1", candidateName := jsTrim " ", startTime := 0,
             status := .active, totalEvents := 0, integrityScore := 100 } ∧
    (postSession Db.empty "s1" 0 none).1 = .badRequest ∧
    (postSession Db.empty "s1" 0 (some "")).1 = .badRequest) :=
  ⟨by decide, C4_validation Db.empty "s1" 0 " " (by decide)⟩

/-! ### C5 -/

theorem handleFace_away_steady (stats : FaceStats) (now s : Nat)
    (hA : stats.isLookingAway = true) (hS : stats.lookAwayStartTime = some s)
    (hs : s ≠ 0) :
    handleFaceDetection stats now awaySample =
      if now - s > 5000 then
        ({ currentFaces := 1, isLookingAway := true, confidence := 1,
           lastFaceTime := now, lookAwayStartTime := some now },
         [⟨.focus_loss,
           "Candidate looked away from screen for more than 5 seconds",
           .medium⟩])
      else
        ({ currentFaces := 1, isLookingAway := true, confidence := 1,
           lastFaceTime := now, lookAwayStartTime := some s }, []) := by
  simp [handleFaceDetection, awaySample, hA, hS, hs]

theorem focusCount_awayTicksFrom (m : Nat) : ∀ (j s : Nat) (stats : FaceStats),
    stats.isLookingAway = true → stats.lookAwayStartTime = some s → s ≠ 0 →
    1 ≤ j → j ≤ 6 →
    focusLossCount (runTicks stats (awayTicksFrom (s + 1000 * j) m)).2 =
      (m + j - 1) / 6 := by
  induction m with
  | zero =>
    intro j s stats hA hS hs hj1 hj6
    simp only [awayTicksFrom, runTicks, focusLossCount, List.filter_nil,
      List.length_nil]
    omega
  | succ m ih =>
    intro j s stats hA hS hs hj1 hj6
    simp only [awayTicksFrom, runTicks]
    rw [handleFace_away_steady stats (s + 1000 * j) s hA hS hs]
    by_cases hj : j = 6
    · subst hj
      rw [if_pos (by omega)]
      have ht : s + 1000 * 6 + 1000 = s + 6000 + 1000 * 1 := by ring
      rw [ht]
      have hrec := ih 1 (s + 6000)
        { currentFaces := 1, isLookingAway := true, confidence := 1,
          lastFaceTime := s + 1000 * 6, lookAwayStartTime := some (s + 1000 * 6) }
        rfl (by norm_num) (by omega) (by omega) (by omega)
      simp [focusLossCount] at hrec ⊢
      omega
    · rw [if_neg (by omega)]
      have ht : s + 1000 * j + 1000 = s + 1000 * (j + 1) := by ring
      rw [ht]
      have hrec := ih (j + 1) s
        { currentFaces := 1, isLookingAway := true, confidence := 1,
          lastFaceTime := s + 1000 * j, lookAwayStartTime := some s }
        rfl rfl hs (by omega) (by omega)
      simp [focusLossCount] at hrec ⊢
      omega

/-- **C5 counterexample.** With samples every 1000 ms aligned with the
transition tick, a continuous looking-away episode emits NO `focus_loss`
event within its first 5001 ms (ticks at 1000..6000 ms, episode start
1000 ms: elapsed 5000 ms is not `> 5000`), and exactly ONE within
10001 ms — not one and two as claimed. -/
theorem C5_counterexample :
    focusLossCount (runTicks initStats (transitionRun 1000 5)).2 = 0 ∧
    focusLossCount (runTicks initStats (transitionRun 1000 10)).2 = 1 := by
  decide

/-- **C5 amended.** In a run sampled every 1000 ms in which
`isLookingAway` transitions from `false` to `true` at sample time `s` and
stays `true` for `n` further samples, exactly `n / 6` `focus_loss` events
are emitted — the first at the 6th sample after the transition (6000 ms
into the episode, hence exactly one within 6001 ms and exactly two within
12001 ms), because each emission resets the episode start to "now"; a
sample with `isLookingAway = false` clears the episode timer and emits no
`focus_loss` event. -/
theorem C5_focus_loss_debounce :
    (∀ (prev : FaceStats) (s n : Nat), prev.isLookingAway = false → s ≠ 0 →
      focusLossCount (runTicks prev (transitionRun s n)).2 = n / 6) ∧
    (∀ (prev : FaceStats) (now : Nat) (r : DetectionResult),
      r.isLookingAway = false →
      (handleFaceDetection prev now r).1.lookAwayStartTime = none ∧
      focusLossCount (handleFaceDetection prev now r).2 = 0) := by
  constructor
  · intro prev s n hA hs
    simp only [transitionRun, runTicks]
    have h1 : handleFaceDetection prev s awaySample =
        ({ currentFaces := 1, isLookingAway := true, confidence := 1,
           lastFaceTime := s, lookAwayStartTime := some s }, []) := by
      simp [handleFaceDetection, awaySample, hA]
    rw [h1]
    have ht : s + 1000 = s + 1000 * 1 := by ring
    rw [ht]
    have hrec := focusCount_awayTicksFrom n 1 s
      { currentFaces := 1, isLookingAway := true, confidence := 1,
        lastFaceTime := s, lookAwayStartTime := some s }
      rfl rfl hs (by omega) (by omega)
    simp [focusLossCount] at hrec ⊢
    omega
  · intro prev now r hr
    simp [handleFaceDetection, hr]
    split <;> split <;> simp [focusLossCount]

/-- Witness for C5 amended: a 12-sample episode yields `12 / 6 = 2`
events, and a concrete `isLookingAway = false` sample clears the timer. -/
theorem C5_witness :
    (initStats.isLookingAway = false ∧ (1000 : Nat) ≠ 0 ∧
     focusLossCount (runTicks initStats (transitionRun 1000 12)).2 = 12 / 6) ∧
    ((handleFaceDetection initStats 4321 ⟨0, false, 0⟩).1.lookAwayStartTime = none ∧
     focusLossCount (handleFaceDetection initStats 4321 ⟨0, false, 0⟩).2 = 0) :=
  ⟨⟨rfl, by decide, C5_focus_loss_debounce.1 initStats 1000 12 rfl (by decide)⟩,
   C5_focus_loss_debounce.2 initStats 4321 ⟨0, false, 0⟩ rfl⟩

/-! ### C6 -/

theorem noFace_tick (prev : FaceStats) (now : Nat) (r : DetectionResult)
    (h0 : r.faceCount = 0) (h10 : now - prev.lastFaceTime > 10000) :
    ((handleFaceDetection prev now r).2.filter (fun e => e.type = .no_face)) =
      [⟨.no_face, "No face detected for more than 10 seconds", .high⟩] ∧
    (handleFaceDetection prev now r).1.lastFaceTime = prev.lastFaceTime := by
  simp only [handleFaceDetection, h0, h10]
  constructor
  · split <;> (try split) <;> simp_all
  · split <;> (try split) <;> simp_all

/-- **C6.** A tick with `faceCount = 0` falling more than 10000 ms after
the last face-seen timestamp emits exactly one `no_face` event (severity
high, the fixed description) and leaves `lastFaceTime` unchanged, so every
later tick with `faceCount = 0` (at any time `now2 ≥ now`) emits another
`no_face` event — one per qualifying tick, with no reset on emission. -/
theorem C6_no_face_refire (prev : FaceStats) (now : Nat) (r : DetectionResult)
    (h0 : r.faceCount = 0) (h10 : now - prev.lastFaceTime > 10000) :
    ((handleFaceDetection prev now r).2.filter (fun e => e.type = .no_face)) =
      [⟨.no_face, "No face detected for more than 10 seconds", .high⟩] ∧
    (handleFaceDetection prev now r).1.lastFaceTime = prev.lastFaceTime ∧
    (∀ (now2 : Nat) (r2 : DetectionResult), r2.faceCount = 0 → now ≤ now2 →
      ((handleFaceDetection (handleFaceDetection prev now r).1 now2 r2).2.filter
          (fun e => e.type = .no_face)) =
        [⟨.no_face, "No face detected for more than 10 seconds", .high⟩]) := by
  obtain ⟨he, hl⟩ := noFace_tick prev now r h0 h10
  refine ⟨he, hl, ?_⟩
  intro now2 r2 h02 hle
  exact (noFace_tick _ now2 r2 h02 (by rw [hl]; omega)).1

/-- Witness for C6: a face last seen at time 0, sampled absent at 10001 ms
and again at 11001 ms. -/
theorem C6_witness :
    ((0 : Nat) = 0 ∧ (10001 : Nat) - initStats.lastFaceTime > 10000) ∧
    ((handleFaceDetection initStats 10001 ⟨0, false, 0⟩).2.filter
        (fun e => e.type = .no_face)) =
      [⟨.no_face, "No face detected for more than 10 seconds", .high⟩] ∧
    (handleFaceDetection initStats 10001 ⟨0, false, 0⟩).1.lastFaceTime =
      initStats.lastFaceTime ∧
    (∀ (now2 : Nat) (r2 : DetectionResult), r2.faceCount = 0 → 10001 ≤ now2 →
      ((handleFaceDetection (handleFaceDetection initStats 10001 ⟨0, false, 0⟩).1 now2 r2).2.filter
          (fun e => e.type = .no_face)) =
        [⟨.no_face, "No face detected for more than 10 seconds", .high⟩]) :=
  ⟨⟨rfl, by decide⟩,
   C6_no_face_refire initStats 10001 ⟨0, false, 0⟩ rfl (by decide)⟩

/-! ### C9 -/

/-- **C9.** A tick with `faceCount > 1` emits, regardless of the prior
debouncer state, exactly one `multiple_faces` event of severity high whose
description states the exact count. -/
theorem C9_multiple_faces (prev : FaceStats) (now : Nat) (r : DetectionResult)
    (h : r.faceCount > 1) :
    ((handleFaceDetection prev now r).2.filter (fun e => e.type = .multiple_faces)) =
      [⟨.multiple_faces, toString r.faceCount ++ " faces detected in frame", .high⟩] := by
  have h0 : ¬(r.faceCount = 0 ∧ 10000 < now - prev.lastFaceTime) := by omega
  simp only [handleFaceDetection, h0, gt_iff_lt, h]
  split <;> split <;> simp_all

/-- Witness for C9 at `faceCount = 3`: the description is the literal
string `"3 faces detected in frame"`. -/
theorem C9_witness :
    (3 : Nat) > 1 ∧
    ((handleFaceDetection initStats 0 ⟨3, false, 1⟩).2.filter
        (fun e => e.type = .multiple_faces)) =
      [⟨.multiple_faces, "3 faces detected in frame", .high⟩] :=
  ⟨by decide, by
    rw [C9_multiple_faces initStats 0 ⟨3, false, 1⟩ (by decide)]
    decide⟩

/-! ### C7 -/

/-- **C7.** The recommendation list is the score-band tier message
(`≥90` Excellent, `≥70` Good, `≥50` Moderate, else Significant) followed,
in fixed order, by the focus-loss advisory iff `focus_loss` count `> 3`,
the workspace advisory iff `suspicious_object` count `> 0`, the assistance
advisory iff `multiple_faces` count `> 0`, and the investigation advisory
iff high-severity count `> 2`; it is never empty. -/
theorem C7_recommendations (stats : ReportStats) :
    generateRecommendations stats =
      tierMessage stats.integrityScore ::
        ((if stats.eventsByType.focus_loss > 3 then
            ["Candidate frequently lost focus. Consider environment assessment."]
          else []) ++
         (if stats.eventsByType.suspicious_object > 0 then
            ["Suspicious objects detected. Verify candidate workspace setup."]
          else []) ++
         (if stats.eventsByType.multiple_faces > 0 then
            ["Multiple faces detected. Investigate potential unauthorized assistance."]
          else []) ++
         (if stats.eventsBySeverity.high > 2 then
            ["Multiple high-severity events recorded. Detailed investigation required."]
          else [])) ∧
    generateRecommendations stats ≠ [] := by
  constructor
  · simp only [generateRecommendations, tierMessage]
    split_ifs <;> simp
  · simp only [generateRecommendations]
    split_ifs <;> simp

/-! ### C8 -/

/-- **C8 counterexample.** A direct external write of `integrityScore`
through `updateSession` is applied, not rejected or ignored: writing 0 to
Jane's fresh session (whose ledger is empty, recomputed score 100) stores
0 and breaks the cache invariant. -/
theorem C8_counterexample :
    getSession (updateSession dbJane "s1" { integrityScore := some 0 }).2 "s1" =
      some { janeSession with integrityScore := 0 } ∧
    max 0 (100 - totalDeductions
        (getEvents (updateSession dbJane "s1" { integrityScore := some 0 }).2 "s1")) = 100 ∧
    ¬ ScoreInv (updateSession dbJane "s1" { integrityScore := some 0 }).2 :=
  ⟨rfl, rfl,
   fun h => absurd ((h "s1" { janeSession with integrityScore := 0 } rfl).1) (by decide)⟩

/-- **C8 amended.** `updateSession` applies direct external writes to the
derived fields instead of rejecting or ignoring them (first clause), so
the cache invariant can be broken by such a write; the invariant is
preserved by `createSession`, by `addEvent`, and by every `updateSession`
whose update carries neither `totalEvents` nor `integrityScore`. -/
theorem C8_cache_invariant :
    (∀ (db : Db) (sid : String) (u : SessionUpdates) (s : ProctoringSession)
        (v : Int), getSession db sid = some s → u.integrityScore = some v →
      getSession (updateSession db sid u).2 sid = some (applyUpdates s u) ∧
      (applyUpdates s u).integrityScore = v) ∧
    (∀ (db : Db) (newId : String) (now : Nat) (name : String),
      ScoreInv db → ScoreInv (createSession db newId now name).2) ∧
    (∀ (db : Db) (sid newId : String) (input : EventInput),
      ScoreInv db → ScoreInv (addEvent db sid newId input).2) ∧
    (∀ (db : Db) (sid : String) (u : SessionUpdates),
      u.totalEvents = none → u.integrityScore = none →
      ScoreInv db → ScoreInv (updateSession db sid u).2) := by
  refine ⟨?_, ?_, ?_, ?_⟩
  · intro db sid u s v h hv
    refine ⟨(C3_no_transition_guard db sid u s h).2, ?_⟩
    simp [applyUpdates, hv]
  · intro db newId now name hInv sid s h
    by_cases hq : newId = sid
    · subst hq
      simp only [createSession, getSession, getEvents, mapGet_mapSet_self,
        Option.some.injEq] at h ⊢
      subst h
      simp [totalDeductions]
    · simp only [createSession, getSession, getEvents,
        mapGet_mapSet_ne _ _ _ _ hq] at h ⊢
      exact hInv sid s h
  · intro db sid newId input hInv sid2 s h
    by_cases hq : sid = sid2
    · subst hq
      simp only [addEvent, getSession, getEvents, mapGet_mapSet_self,
        Option.getD_some] at h ⊢
      cases hm : mapGet sid db.sessions with
      | none =>
        rw [hm] at h
        dsimp only at h
        rw [hm] at h
        exact absurd h (by simp)
      | some session =>
        rw [hm] at h
        rw [mapGet_mapSet_self] at h
        cases h
        simp
    · simp only [addEvent, getSession, getEvents,
        mapGet_mapSet_ne _ _ _ _ hq] at h ⊢
      cases hm : mapGet sid db.sessions with
      | none =>
        rw [hm] at h
        exact hInv sid2 s h
      | some session =>
        rw [hm, mapGet_mapSet_ne _ _ _ _ hq] at h
        exact hInv sid2 s h
  · intro db sid u hT hI hInv sid2 s h
    simp only [updateSession] at h ⊢
    cases hm : mapGet sid db.sessions with
    | none =>
      rw [hm] at h
      exact hInv sid2 s h
    | some session =>
      rw [hm] at h
      by_cases hq : sid = sid2
      · subst hq
        simp only [getSession, mapGet_mapSet_self, Option.some.injEq] at h
        subst h
        have := hInv sid session (by simp [getSession, hm])
        simp only [getEvents] at this ⊢
        simpa [applyUpdates, hT, hI] using this
      · simp only [getSession, mapGet_mapSet_ne _ _ _ _ hq] at h
        exact hInv sid2 s h

/-- Witness for C8 amended: a score write on Jane's session is applied,
and the invariant holds along creation, an append, and a status-only
update. -/
theorem C8_witness :
    (getSession (updateSession dbJane "s1" { integrityScore := some 0 }).2 "s1" =
       some (applyUpdates janeSession { integrityScore := some 0 }) ∧
     (applyUpdates janeSession { integrityScore := some 0 }).integrityScore = 0) ∧
    ScoreInv (createSession Db.empty "s1" 0 "Jane").2 ∧
    ScoreInv (addEvent dbJane "s1" "e1" sampleInput).2 ∧
    ScoreInv (updateSession dbJane "s1" { status := some .completed }).2 := by
  have emptyInv : ScoreInv Db.empty := by
    intro sid s h
    simp [getSession, mapGet, Db.empty] at h
  have janeInv : ScoreInv dbJane :=
    C8_cache_invariant.2.1 Db.empty "s1" 0 "Jane" emptyInv
  exact ⟨C8_cache_invariant.1 dbJane "s1" { integrityScore := some 0 }
           janeSession 0 (by decide) rfl,
         janeInv,
         C8_cache_invariant.2.2.1 dbJane "s1" "e1" sampleInput janeInv,
         C8_cache_invariant.2.2.2 dbJane "s1" { status := some .completed }
           rfl rfl janeInv⟩

/-! ### C10 -/

/-- **C10 counterexample.** The claim fails on the code: after a ghost
append (an `addEvent` on a sessionId with no session — reachable through
`POST /api/events`, cf. C2), `getEvents` on that still-nonexistent
session returns a NON-empty sequence, so an unknown session is not
always indistinguishable from an existing session with no events. -/
theorem C10_counterexample :
    getSession (addEvent Db.empty "ghost" "e9"
        ⟨.focus_loss, 7, "looked away", .medium, none⟩).2 "ghost" = none ∧
    getEvents (addEvent Db.empty "ghost" "e9"
        ⟨.focus_loss, 7, "looked away", .medium, none⟩).2 "ghost" =
      [{ id := "e9", sessionId := "ghost", type := .focus_loss,
         timestamp := 7, description := "looked away", severity := .medium,
         metadata := none }] ∧
    getEvents (addEvent Db.empty "ghost" "e9"
        ⟨.focus_loss, 7, "looked away", .medium, none⟩).2 "ghost" ≠ [] :=
  ⟨rfl, rfl, by decide⟩

/-- **C10 amended.** The read interface never reports not-found: for every
database, sessionId and optional type filter, the GET `/api/events` route
answers success (first clause — also on a database holding ghost events).
The result is the empty sequence whenever that sessionId's ledger slot is
empty — in particular for any sessionId never passed to `addEvent` —
but after a ghost append (C2) the same reads return that sessionId's
non-empty ledger, so an unknown session is indistinguishable from an
existing session with no events only in the absence of ghost appends. -/
theorem C10_no_not_found_reads :
    (∀ (db : Db) (sid : String) (t : Option EventType),
      ∃ evs : List ProctoringEvent, getEventsRoute db (some sid) t = .ok evs) ∧
    (∀ (db : Db) (sid : String), mapGet sid db.events = none →
      getEvents db sid = [] ∧
      (∀ t : EventType, getEventsByType db sid t = []) ∧
      (∀ t : Option EventType, getEventsRoute db (some sid) t = .ok [])) := by
  constructor
  · intro db sid t
    cases t <;> exact ⟨_, rfl⟩
  · intro db sid he
    refine ⟨by simp [getEvents, he], fun t => by simp [getEventsByType, he], ?_⟩
    intro t
    cases t <;> simp [getEventsRoute, getEvents, getEventsByType, he]

/-- Witness for C10 amended: the route answers success even on the
ghost-append database, and the unknown id `"ghost"` on the empty database
reads back as empty. -/
theorem C10_witness :
    (∃ evs : List ProctoringEvent,
      getEventsRoute (addEvent Db.empty "ghost" "e9"
          ⟨.focus_loss, 7, "looked away", .medium, none⟩).2
        (some "ghost") none = .ok evs) ∧
    mapGet "ghost" Db.empty.events = none ∧
    getEvents Db.empty "ghost" = [] ∧
    (∀ t : EventType, getEventsByType Db.empty "ghost" t = []) ∧
    (∀ t : Option EventType, getEventsRoute Db.empty (some "ghost") t = .ok []) :=
  ⟨C10_no_not_found_reads.1 _ "ghost" none, rfl,
   C10_no_not_found_reads.2 Db.empty "ghost" rfl⟩

end VideoProctoring
